import Mathlib

/-!
Verification development for the openCLI protocol-translation adapter.

This file gives a shallow embedding, in Lean 4, of the adapter subsystem of
the openCLI repository:

  * `packages/core/src/config/models.ts` — the model registry
    (`MODEL_CAPABILITIES`, `isLocalModel`, `getModelCapabilities`);
  * `packages/core/src/core/localContentGenerator.ts` — the local backend
    adapter (`checkConnection`, `generateContent`, `countTokens`,
    `convertToOpenAIFormat`, `convertFromOpenAIFormat`);
  * `packages/core/src/core/contentGenerator.ts` — the backend selector
    (`createContentGeneratorConfig`, `createContentGenerator`).

JavaScript-specific semantics are modelled explicitly:

  * optional / possibly-`undefined` values become `Option`;
  * the `||` operator's falsiness on strings (the empty string is falsy) is
    `jsOrStr`, and on numbers (0 is falsy) is `jsOrNat`;
  * `JSON.parse` is modelled by the strict fuel-based parser `Json.parse`
    below (returning `Option Json`), and `JSON.stringify` by
    `Json.stringify`;
  * `String.prototype.replace` with a global fixed-pattern regex is the
    left-to-right, non-overlapping `jsReplaceAll`;
  * network effects are modelled by passing a `Network` oracle
    (`String → FetchResult`) and recording the list of URLs fetched, so
    that theorems can speak about which HTTP requests were issued;
  * thrown exceptions become `Except` / explicit error values; every Lean
    function here is total, which is how "never throws past this boundary"
    claims are expressed.
-/

/-! ## JSON values

`Json` models a parsed JavaScript JSON value.  Numbers are kept as their
source literal text (`num lit`): none of the adapter's logic inspects
numeric values of parsed tool arguments, so the literal is the faithful
carrier that still distinguishes parse success from parse failure. -/

inductive Json where
  | null : Json
  | bool (b : Bool) : Json
  | num (lit : String) : Json
  | str (s : String) : Json
  | arr (items : List Json) : Json
  | obj (fields : List (String × Json)) : Json
deriving Repr

/-- Hexadecimal digit test (Lean 4.14 core has none on `Char`). -/
def isHexDigitChar (c : Char) : Bool :=
  c.isDigit || ('a' ≤ c && c ≤ 'f') || ('A' ≤ c && c ≤ 'F')

/-- JSON whitespace characters (RFC 8259: space, tab, line feed, carriage
return), as skipped by `JSON.parse` between tokens. -/
def isJsonWs (c : Char) : Bool :=
  c = ' ' || c = '\t' || c = '\n' || c = '\r'

/-- Skip JSON whitespace. -/
def skipWs : List Char → List Char
  | [] => []
  | c :: cs => if isJsonWs c then skipWs cs else c :: cs

/-- Decode one escape sequence after a backslash inside a JSON string
literal.  Only the escapes `\" \\ \/ \b \f \n \r \t \uXXXX` are accepted
(`JSON.parse` strictness); anything else is a syntax error (`none`). -/
def decodeEscape : List Char → Option (Char × List Char)
  | [] => none
  | e :: cs =>
    if e = '"' then some ('"', cs)
    else if e = '\\' then some ('\\', cs)
    else if e = '/' then some ('/', cs)
    else if e = 'b' then some (Char.ofNat 8, cs)
    else if e = 'f' then some (Char.ofNat 12, cs)
    else if e = 'n' then some ('\n', cs)
    else if e = 'r' then some ('\r', cs)
    else if e = 't' then some ('\t', cs)
    else if e = 'u' then
      match cs with
      | h1 :: h2 :: h3 :: h4 :: cs' =>
        if isHexDigitChar h1 && isHexDigitChar h2 && isHexDigitChar h3 && isHexDigitChar h4 then
          let hv (h : Char) : Nat :=
            if h.isDigit then h.toNat - '0'.toNat
            else if 'a' ≤ h ∧ h ≤ 'f' then h.toNat - 'a'.toNat + 10
            else h.toNat - 'A'.toNat + 10
          let n := ((hv h1 * 16 + hv h2) * 16 + hv h3) * 16 + hv h4
          -- Surrogate pairing is not modelled (no claim inspects the
          -- decoded content of `\u` escapes, only parse success/failure).
          some (Char.ofNat n, cs')
        else none
      | _ => none
    else none

/-- Parse the tail of a JSON string literal (the opening quote already
consumed), fuel-bounded.  Enforces `JSON.parse` strictness: raw control
characters (code points below 0x20) are rejected. -/
def parseStringTail : Nat → List Char → Option (String × List Char)
  | 0, _ => none
  | _, [] => none
  | fuel + 1, c :: cs =>
    if c = '"' then some ("", cs)
    else if c.toNat < 0x20 then none
    else if c = '\\' then
      match decodeEscape cs with
      | none => none
      | some (d, rest) =>
        match parseStringTail fuel rest with
        | some (s, rest') => some (String.mk (d :: s.data), rest')
        | none => none
    else
      match parseStringTail fuel cs with
      | some (s, rest') => some (String.mk (c :: s.data), rest')
      | none => none

/-- Take a run of decimal digits; returns the run and the rest. -/
def takeDigits : List Char → List Char × List Char
  | [] => ([], [])
  | c :: cs =>
    if c.isDigit then
      let (ds, rest) := takeDigits cs
      (c :: ds, rest)
    else ([], c :: cs)

/-- Parse a JSON number per the RFC 8259 grammar, returning its literal
text and the rest of the input. -/
def parseNumber (input : List Char) : Option (String × List Char) :=
  let (sign, afterSign) :=
    match input with
    | '-' :: cs => (['-'], cs)
    | cs => (([] : List Char), cs)
  match afterSign with
  | [] => none
  | c :: cs =>
    if c = '0' then
      let (fracExp, rest) := parseFracExp cs
      match fracExp with
      | some fe => some (String.mk (sign ++ '0' :: fe), rest)
      | none => none
    else if c.isDigit then
      let (ds, rest0) := takeDigits cs
      let (fracExp, rest) := parseFracExp rest0
      match fracExp with
      | some fe => some (String.mk (sign ++ c :: ds ++ fe), rest)
      | none => none
    else none
where
  /-- Parse the optional fraction and exponent; `none` marks a malformed
  fraction/exponent (e.g. `1.` or `1e`). -/
  parseFracExp (cs : List Char) : Option (List Char) × List Char :=
    let (fracPart, afterFrac) :=
      match cs with
      | '.' :: cs' =>
        match takeDigits cs' with
        | ([], _) => ((none : Option (List Char)), cs)
        | (ds, rest) => (some ('.' :: ds), rest)
      | _ => (some [], cs)
    match fracPart with
    | none => (none, afterFrac)
    | some fp =>
      match afterFrac with
      | e :: cs' =>
        if e = 'e' ∨ e = 'E' then
          let (signPart, afterESign) :=
            match cs' with
            | '+' :: cs'' => (['+'], cs'')
            | '-' :: cs'' => (['-'], cs'')
            | cs'' => (([] : List Char), cs'')
          match takeDigits afterESign with
          | ([], _) => (none, afterFrac)
          | (ds, rest) => (some (fp ++ e :: signPart ++ ds), rest)
        else (some fp, afterFrac)
      | [] => (some fp, afterFrac)

/-- `s.isPrefixOfList cs`: the characters of `s` start the list `cs`. -/
def strIsPrefixOfList (s : String) : List Char → Bool :=
  fun cs => s.data.isPrefixOf cs

/-- Parse a simple (non-composite) JSON value: string, literal, number. -/
def parseSimple (input : List Char) : Option (Json × List Char) :=
  match input with
  | [] => none
  | c :: cs =>
    if c = '"' then
      match parseStringTail (cs.length + 1) cs with
      | some (s, rest) => some (.str s, rest)
      | none => none
    else if c.isDigit ∨ c = '-' then
      match parseNumber (c :: cs) with
      | some (lit, rest) => some (.num lit, rest)
      | none => none
    else if strIsPrefixOfList "null" (c :: cs) then
      some (.null, (c :: cs).drop 4)
    else if strIsPrefixOfList "true" (c :: cs) then
      some (.bool true, (c :: cs).drop 4)
    else if strIsPrefixOfList "false" (c :: cs) then
      some (.bool false, (c :: cs).drop 5)
    else none

mutual

/-- Parse the items of an array after the opening `[`. -/
def parseArrItems : Nat → List Char → Option (List Json × List Char)
  | 0, _ => none
  | fuel + 1, input =>
    match parseValFull fuel input with
    | none => none
    | some (v, rest) =>
      match skipWs rest with
      | ',' :: rest' =>
        match parseArrItems fuel rest' with
        | some (vs, rest'') => some (v :: vs, rest'')
        | none => none
      | ']' :: rest' => some ([v], rest')
      | _ => none

/-- Parse the members of an object after the opening brace. -/
def parseObjItems : Nat → List Char → Option (List (String × Json) × List Char)
  | 0, _ => none
  | fuel + 1, input =>
    match skipWs input with
    | '"' :: cs =>
      match parseStringTail (cs.length + 1) cs with
      | none => none
      | some (key, rest) =>
        match skipWs rest with
        | ':' :: rest' =>
          match parseValFull fuel rest' with
          | none => none
          | some (v, rest'') =>
            match skipWs rest'' with
            | ',' :: rest3 =>
              match parseObjItems fuel rest3 with
              | some (kvs, rest4) => some ((key, v) :: kvs, rest4)
              | none => none
            | '}' :: rest3 => some ([(key, v)], rest3)
            | _ => none
        | _ => none
    | _ => none

/-- Full JSON value parser: arrays, objects, then the simple values. -/
def parseValFull : Nat → List Char → Option (Json × List Char)
  | 0, _ => none
  | fuel + 1, input =>
    match skipWs input with
    | [] => none
    | c :: cs =>
      if c = '[' then
        match skipWs cs with
        | ']' :: rest => some (.arr [], rest)
        | _ =>
          match parseArrItems fuel cs with
          | some (vs, rest) => some (.arr vs, rest)
          | none => none
      else if c = '{' then
        match skipWs cs with
        | '}' :: rest => some (.obj [], rest)
        | _ =>
          match parseObjItems fuel cs with
          | some (kvs, rest) => some (.obj kvs, rest)
          | none => none
      else parseSimple (c :: cs)

end

/-- Model of `JSON.parse(s)`: parse one JSON value, then require that only
whitespace remains.  Returns `none` exactly where `JSON.parse` throws a
`SyntaxError`. -/
def Json.parse (s : String) : Option Json :=
  match parseValFull (s.length + 1) s.data with
  | some (v, rest) => if skipWs rest = [] then some v else none
  | none => none

/-! ## Model registry — `packages/core/src/config/models.ts` -/

/-- One entry of the `MODEL_CAPABILITIES` table. -/
structure ModelCapability where
  contextWindow : Nat
  supportsThinking : Bool
  supportsTools : Bool
  isLocal : Bool
  provider : String
deriving Repr, DecidableEq

/-- `DEFAULT_QWEN_MODEL` from `models.ts`. -/
def DEFAULT_QWEN_MODEL : String := "qwen3-30b-a3b-dwq-05082025"

/-- `DEFAULT_LOCAL_ENDPOINT` from `models.ts`. -/
def DEFAULT_LOCAL_ENDPOINT : String := "http://127.0.0.1:1234"

/-- `DEFAULT_GEMINI_MODEL` from `models.ts`. -/
def DEFAULT_GEMINI_MODEL : String := "gemini-2.5-pro"

/-- The `MODEL_CAPABILITIES` table of `models.ts`, key by key. -/
def MODEL_CAPABILITIES : List (String × ModelCapability) :=
  [ ("qwen3-30b-a3b",
      { contextWindow := 131072, supportsThinking := true, supportsTools := true,
        isLocal := true, provider := "lm-studio" }),
    ("qwen3-30b-a3b-dwq-05082025",
      { contextWindow := 131072, supportsThinking := true, supportsTools := true,
        isLocal := true, provider := "lm-studio" }),
    ("gemini-2.5-pro",
      { contextWindow := 1048576, supportsThinking := true, supportsTools := true,
        isLocal := false, provider := "google" }) ]

/-- `isLocalModel(model)`: `MODEL_CAPABILITIES[model]?.isLocal ?? false`. -/
def isLocalModel (model : String) : Bool :=
  match (MODEL_CAPABILITIES.lookup model).map ModelCapability.isLocal with
  | some b => b
  | none => false

/-- The default capability object returned by `getModelCapabilities` for
identifiers missing from the table. -/
def defaultModelCapability : ModelCapability :=
  { contextWindow := 4096, supportsThinking := false, supportsTools := true,
    isLocal := false, provider := "unknown" }

/-- `getModelCapabilities(model)`: table lookup with the fixed default as
fallback (a JS object is always truthy, so `||` is exactly `getD`). -/
def getModelCapabilities (model : String) : ModelCapability :=
  (MODEL_CAPABILITIES.lookup model).getD defaultModelCapability

/-- C5: For every model identifier not present in the capability table,
`getModelCapabilities` returns the fixed default descriptor
(contextWindow 4096, supportsThinking false, supportsTools true,
isLocal false, provider "unknown") and `isLocalModel` returns false.
Both are plain Lean functions, hence pure and total. -/
theorem registry_default_for_unknown (m : String)
    (h : m ∉ MODEL_CAPABILITIES.map Prod.fst) :
    getModelCapabilities m = defaultModelCapability ∧ isLocalModel m = false := by
  simp [ MODEL_CAPABILITIES ] at h
  obtain ⟨h1, h2, h3⟩ := h
  have e1 : (m == "qwen3-30b-a3b") = false := beq_eq_false_iff_ne.mpr h1
  have e2 : (m == "qwen3-30b-a3b-dwq-05082025") = false := beq_eq_false_iff_ne.mpr h2
  have e3 : (m == "gemini-2.5-pro") = false := beq_eq_false_iff_ne.mpr h3
  simp [ getModelCapabilities, isLocalModel, MODEL_CAPABILITIES, List.lookup, e1, e2, e3]

/-- Witness for C5 at the concrete unknown identifier "gpt-4". -/
theorem registry_default_for_unknown_witness :
    ("gpt-4" ∉ MODEL_CAPABILITIES.map Prod.fst) ∧
      (getModelCapabilities "gpt-4" = defaultModelCapability ∧
        isLocalModel "gpt-4" = false) :=
  ⟨by decide, registry_default_for_unknown "gpt-4" (by decide)⟩

example : Json.parse "[1, 2]" = some (.arr [.num "1", .num "2"]) := by rfl
example : Json.parse "not json" = none := by rfl

/-! ## JS semantics helpers -/

/-- JavaScript `a || b` on a possibly-undefined string: `undefined` and the
empty string are falsy. -/
def jsOrStr (a : Option String) (b : String) : String :=
  match a with
  | some s => if s = "" then b else s
  | none => b

/-- JavaScript `a || b` on a possibly-undefined number: `undefined` and `0`
are falsy. -/
def jsOrNat (a : Option Nat) (b : Nat) : Nat :=
  match a with
  | some n => if n = 0 then b else n
  | none => b

/-! ## `JSON.stringify` -/

/-- Lowercase hexadecimal digit for `\u00XX` escapes. -/
def hexDigitChar (n : Nat) : Char :=
  if n < 10 then Char.ofNat ('0'.toNat + n) else Char.ofNat ('a'.toNat + n - 10)

/-- Escape one character the way `JSON.stringify` serializes string
contents. -/
def escapeJsonChar (c : Char) : String :=
  if c = '"' then "\\\""
  else if c = '\\' then "\\\\"
  else if c = '\n' then "\\n"
  else if c = '\r' then "\\r"
  else if c = '\t' then "\\t"
  else if c = Char.ofNat 8 then "\\b"
  else if c = Char.ofNat 12 then "\\f"
  else if c.toNat < 0x20 then
    "\\u00" ++ String.mk [hexDigitChar (c.toNat / 16), hexDigitChar (c.toNat % 16)]
  else String.mk [c]

/-- Serialize a string as a quoted JSON string literal. -/
def quoteJsonString (s : String) : String :=
  "\"" ++ String.join (s.data.map escapeJsonChar) ++ "\""

mutual

/-- Model of `JSON.stringify` (compact form, no indentation), as used by
`countTokens` on the request object. -/
def Json.stringify : Json → String
  | .null => "null"
  | .bool true => "true"
  | .bool false => "false"
  | .num lit => lit
  | .str s => quoteJsonString s
  | .arr items => "[" ++ stringifyItems items ++ "]"
  | .obj fields => "\x7b" ++ stringifyFields fields ++ "\x7d"

/-- Comma-separated serialization of array items. -/
def stringifyItems : List Json → String
  | [] => ""
  | [v] => Json.stringify v
  | v :: vs => Json.stringify v ++ "," ++ stringifyItems vs

/-- Comma-separated serialization of object members. -/
def stringifyFields : List (String × Json) → String
  | [] => ""
  | [(k, v)] => quoteJsonString k ++ ":" ++ Json.stringify v
  | (k, v) :: kvs =>
    quoteJsonString k ++ ":" ++ Json.stringify v ++ "," ++ stringifyFields kvs

end

/-! ## Local backend adapter — `countTokens`
(`localContentGenerator.ts`, lines 113–121) -/

/-- Canonical token-count result. -/
structure CountTokensResponse where
  totalTokens : Nat
deriving Repr, DecidableEq

/-- `countTokens(request)`: serializes the request with `JSON.stringify`
and returns `Math.ceil(textLength / 4)`.  The request object is modelled
by its JSON value.  The body performs no `fetch`: the definition takes no
network oracle, which expresses "without contacting the backend". -/
def countTokens (request : Json) : CountTokensResponse :=
  let textLength := (Json.stringify request).length
  { totalTokens := ⌈(textLength : ℚ) / 4⌉₊ }

/-- `Math.ceil(n / 4)` over the naturals is `(n + 3) / 4`. -/
theorem natCeil_div_four (n : Nat) : ⌈(n : ℚ) / 4⌉₊ = (n + 3) / 4 := by
  rcases Nat.eq_zero_or_pos n with h0 | hpos
  · subst h0
    norm_num
  · have hm : (n + 3) / 4 ≠ 0 := by omega
    have hm1 : 1 ≤ (n + 3) / 4 := Nat.one_le_iff_ne_zero.mpr hm
    rw [Nat.ceil_eq_iff hm]
    have h1 : 4 * ((n + 3) / 4 - 1) < n := by omega
    have h2 : n ≤ 4 * ((n + 3) / 4) := by omega
    constructor
    · rw [lt_div_iff₀ (by norm_num : (0:ℚ) < 4)]
      have := (Nat.cast_lt (α := ℚ)).mpr h1
      push_cast [hm1] at this ⊢
      linarith
    · rw [div_le_iff₀ (by norm_num : (0:ℚ) < 4)]
      have := (Nat.cast_le (α := ℚ)).mpr h2
      push_cast at this ⊢
      linarith

/-- C8: `countTokens` returns exactly the ceiling of (length of the
JSON-serialized request) / 4 — equivalently `(length + 3) / 4` — and, being
a function of the request alone (no network oracle), contacts no backend. -/
theorem countTokens_ceil_of_serialized_length (request : Json) :
    (countTokens request).totalTokens = ⌈((Json.stringify request).length : ℚ) / 4⌉₊ ∧
      (countTokens request).totalTokens = ((Json.stringify request).length + 3) / 4 :=
  ⟨rfl, natCeil_div_four (Json.stringify request).length⟩

/-! ## Canonical request model (`@google/genai` shapes used by the code) -/

/-- A canonical content part.  The translator reads only `text`;
`functionResponse` stands for the structured tool-result payload a part
may carry instead. -/
structure Genai.Part where
  text : Option String
  functionResponse : Option Json

/-- A canonical conversation turn. -/
structure Genai.Content where
  role : Option String
  parts : Option (List Genai.Part)

/-- The `contents` field: the code branches on `typeof contents ===
'string'` and `Array.isArray(contents)`; these are the two shapes it
handles. -/
inductive ContentsValue where
  | str (s : String)
  | list (cs : List Genai.Content)

/-- One tool function declaration.  `parameters` is a JSON-schema object
modelled by its field list (`Object.keys(x).length` is the list length);
`none` is an absent/undefined schema. -/
structure FunctionDeclaration where
  name : String
  description : Option String
  parameters : Option (List (String × Json))

/-- A tool group carrying function declarations. -/
structure Tool where
  functionDeclarations : Option (List FunctionDeclaration)

/-- The request `config` (only `tools` is read by the translator). -/
structure GenConfig where
  tools : Option (List Tool)

/-- Canonical generation request (the fields `convertToOpenAIFormat`
reads). -/
structure GenerateContentParameters where
  contents : Option ContentsValue
  config : Option GenConfig

/-! ## Wire request model (OpenAI-dialect chat completion) -/

/-- One wire chat message. -/
structure WireMessage where
  role : String
  content : String
deriving Repr, DecidableEq

/-- The `function` member of a wire tool entry. -/
structure WireFunction where
  name : String
  description : Option String
  parameters : Json

/-- One wire tool entry (`type: 'function'`). -/
structure WireTool where
  type : String
  function : WireFunction

/-- The wire chat-completion request body built by
`convertToOpenAIFormat` (before `stream: false` is merged in by
`generateContent`). -/
structure OpenAIRequest where
  model : String
  messages : List WireMessage
  temperature : ℚ
  max_tokens : Nat
  top_p : ℚ
  tools : Option (List WireTool)
  tool_choice : Option String

/-! ## Request translator — `convertToOpenAIFormat`
(`localContentGenerator.ts`, lines 127–210) -/

/-- The fixed synthetic system instruction pushed first
(`localContentGenerator.ts`, lines 135–137). -/
def systemPromptMessage : WireMessage :=
  { role := "system",
    content := "You are a helpful AI assistant with access to tools. When asked to create files, use the write_file tool. When asked to run commands, use the run_shell_command tool. Use the appropriate tools to complete user requests." }

/-- `part.text || ''`: the flattened contribution of one part. -/
def partFlattenedText (p : Genai.Part) : String :=
  p.text.getD ""

/-- `Array.prototype.join('\n')`. -/
def joinNl : List String → String
  | [] => ""
  | [s] => s
  | s :: rest => s ++ "\n" ++ joinNl rest

/-- JS truthiness of `s.trim()`: true iff `s` contains a non-whitespace
character. -/
def hasNonWsChar (s : String) : Bool :=
  s.data.any (fun c => !c.isWhitespace)

/-- Translate one canonical turn to an optional wire message
(`localContentGenerator.ts`, lines 147–155): requires truthy `role` and
`parts`, maps role `model` to `assistant`, flattens part texts joined by
newlines, and drops the turn when the joined text is empty after
trimming. -/
def messageOfContent (c : Genai.Content) : Option WireMessage :=
  match c.role, c.parts with
  | some role, some parts =>
    if role = "" then none
    else
      let wireRole := if role = "model" then "assistant" else role
      let text := joinNl (parts.map partFlattenedText)
      if hasNonWsChar text then some { role := wireRole, content := text } else none
  | _, _ => none

/-- The fixed allow-list of tool names (`localContentGenerator.ts`,
line 177). -/
def allowedToolNames : List String :=
  ["list_directory", "read_file", "search_file_content", "glob",
   "write_file", "replace", "run_shell_command"]

/-- The explicit empty-object schema `(type: object, properties: empty)`
substituted for an absent or empty parameter schema. -/
def emptyObjectSchema : Json :=
  Json.obj [("type", Json.str "object"), ("properties", Json.obj [])]

/-- Map one allow-listed declaration to its wire tool entry, normalizing
an absent or empty parameter schema (`localContentGenerator.ts`,
lines 179–188). -/
def wireToolOfDecl (func : FunctionDeclaration) : WireTool :=
  { type := "function",
    function :=
      { name := func.name,
        description := func.description,
        parameters :=
          match func.parameters with
          | some ps => if ps.length > 0 then Json.obj ps else emptyObjectSchema
          | none => emptyObjectSchema } }

/-- The nested loop over tool groups and declarations that accumulates
the wire tool list (`localContentGenerator.ts`, lines 170–194). -/
def collectWireTools (toolGroups : List Tool) : List WireTool :=
  toolGroups.flatMap (fun tool =>
    match tool.functionDeclarations with
    | some declarations =>
      declarations.flatMap (fun func =>
        if allowedToolNames.contains func.name then [wireToolOfDecl func] else [])
    | none => [])

/-- The message list: the synthetic system message first, then the
translation of `contents` (string ⇒ one user message, guarded by JS
truthiness, so the empty string contributes nothing; array ⇒ per-turn
translation). -/
def messagesOfRequest (request : GenerateContentParameters) : List WireMessage :=
  systemPromptMessage ::
    (match request.contents with
     | none => []
     | some (.str s) => if s = "" then [] else [{ role := "user", content := s }]
     | some (.list cs) => cs.filterMap messageOfContent)

/-- `convertToOpenAIFormat(request)` for a generator configured with
`model`: fixed generation parameters, flattened messages, and the
filtered tool list attached (with `tool_choice: 'auto'`) only when
non-empty. -/
def convertToOpenAIFormat (model : String) (request : GenerateContentParameters) :
    OpenAIRequest :=
  let base : OpenAIRequest :=
    { model := model, messages := messagesOfRequest request,
      temperature := 7/10, max_tokens := 16384, top_p := 9/10,
      tools := none, tool_choice := none }
  match request.config with
  | some cfg =>
    match cfg.tools with
    | some toolGroups =>
      let tools := collectWireTools toolGroups
      if tools.length > 0 then
        { base with tools := some tools, tool_choice := some "auto" }
      else base
    | none => base
  | none => base

/-! ## Theorems about the request translator -/

/-- A flatMap of guarded singletons is a filter followed by a map. -/
theorem flatMap_guard_singleton {α β : Type} (p : α → Bool) (g : α → β) (l : List α) :
    (l.flatMap (fun a => if p a then [g a] else [])) = (l.filter p).map g := by
  induction l with
  | nil => rfl
  | cons a l ih =>
    by_cases h : p a <;> simp [List.filter_cons, h, ih]

/-- The nested accumulation loop keeps exactly the allow-listed
declarations, in order, each mapped to its wire entry. -/
theorem collectWireTools_eq (toolGroups : List Tool) :
    collectWireTools toolGroups =
      ((toolGroups.flatMap (fun t => t.functionDeclarations.getD [])).filter
        (fun fd => allowedToolNames.contains fd.name)).map wireToolOfDecl := by
  induction toolGroups with
  | nil => rfl
  | cons t ts ih =>
    have hinner :
        (match t.functionDeclarations with
         | some declarations =>
           declarations.flatMap (fun func =>
             if allowedToolNames.contains func.name then [wireToolOfDecl func] else [])
         | none => ([] : List WireTool)) =
        ((t.functionDeclarations.getD []).filter
          (fun fd => allowedToolNames.contains fd.name)).map wireToolOfDecl := by
      cases t.functionDeclarations with
      | none => rfl
      | some ds => exact flatMap_guard_singleton _ _ ds
    simp only [collectWireTools, List.flatMap_cons, List.filter_append, List.map_append]
    simp only [collectWireTools] at ih
    rw [hinner, ih]

/-- The `messages` field does not depend on the tools branch. -/
theorem convert_messages_eq (model : String) (request : GenerateContentParameters) :
    (convertToOpenAIFormat model request).messages = messagesOfRequest request := by
  rcases request with ⟨contents, config⟩
  cases config with
  | none => rfl
  | some cfg =>
    rcases cfg with ⟨tools⟩
    cases tools with
    | none => rfl
    | some tg =>
      unfold convertToOpenAIFormat
      by_cases h : (collectWireTools tg).length > 0 <;> simp [h]

/-- C3: with tool declarations present, the wire tool list is exactly the
declarations whose names are on the fixed allow-list (in order, each
mapped to its wire entry with `type: 'function'`); an absent or empty
parameter schema is normalized to the explicit empty-object schema; and
when nothing survives the filter — in particular for an empty declaration
list — the wire request carries no `tools` field (`none`). -/
theorem toWire_tools_allowlist_filter (model : String)
    (contents : Option ContentsValue) (toolGroups : List Tool) :
    (convertToOpenAIFormat model
        { contents := contents, config := some { tools := some toolGroups } }).tools =
      (if ((toolGroups.flatMap (fun t => t.functionDeclarations.getD [])).filter
            (fun fd => allowedToolNames.contains fd.name)).length = 0 then none
       else some (((toolGroups.flatMap (fun t => t.functionDeclarations.getD [])).filter
            (fun fd => allowedToolNames.contains fd.name)).map wireToolOfDecl)) ∧
      (∀ fd : FunctionDeclaration, (fd.parameters = none ∨ fd.parameters = some []) →
        (wireToolOfDecl fd).function.parameters = emptyObjectSchema) ∧
      (toolGroups = [] →
        (convertToOpenAIFormat model
          { contents := contents, config := some { tools := some toolGroups } }).tools
          = none) := by
  have htools : (convertToOpenAIFormat model
      { contents := contents, config := some { tools := some toolGroups } }).tools =
      (if (collectWireTools toolGroups).length = 0 then none
       else some (collectWireTools toolGroups)) := by
    unfold convertToOpenAIFormat
    by_cases h : (collectWireTools toolGroups).length > 0
    · have hne : ¬ (collectWireTools toolGroups).length = 0 := by omega
      simp [h, hne]
    · have h0 : (collectWireTools toolGroups).length = 0 := by omega
      simp [h, h0]
  refine ⟨?_, ?_, ?_⟩
  · rw [htools, collectWireTools_eq]
    simp only [List.length_map]
  · intro fd hfd
    rcases hfd with h | h <;> simp [wireToolOfDecl, h]
  · intro hempty
    subst hempty
    simpa using htools

/-- Concrete tool groups for the C3 witness: one allow-listed declaration
with an absent schema next to one declaration off the allow-list. -/
def c3WitnessToolGroups : List Tool :=
  [ { functionDeclarations := some
        [ { name := "write_file", description := none, parameters := none },
          { name := "dance", description := none, parameters := none } ] } ]

/-- Witness for C3: on the concrete request the wire tool list keeps only
`write_file`, with the normalized empty-object schema. -/
theorem toWire_tools_allowlist_filter_witness :
    (convertToOpenAIFormat "m"
        { contents := none, config := some { tools := some c3WitnessToolGroups } }).tools =
      some [ { type := "function",
               function := { name := "write_file", description := none,
                             parameters := emptyObjectSchema } } ] := by
  have h := (toWire_tools_allowlist_filter "m" none c3WitnessToolGroups).1
  rw [h]
  rfl

/-- `hasNonWsChar` distributes over append as boolean or. -/
theorem hasNonWsChar_append (a b : String) :
    hasNonWsChar (a ++ b) = (hasNonWsChar a || hasNonWsChar b) := by
  simp [hasNonWsChar, String.data_append]

/-- Joining only empty strings with newlines yields pure whitespace. -/
theorem hasNonWsChar_joinNl_all_empty :
    ∀ l : List String, (∀ s ∈ l, s = "") → hasNonWsChar (joinNl l) = false
  | [], _ => rfl
  | [s], h => by
    have hs := h s (by simp)
    subst hs
    rfl
  | s :: s' :: l, h => by
    have hs := h s (by simp)
    have hrest : ∀ x ∈ s' :: l, x = "" := fun x hx => h x (by simp [hx])
    have ih := hasNonWsChar_joinNl_all_empty (s' :: l) hrest
    subst hs
    have hnl : hasNonWsChar "\n" = false := by decide
    have hemp : hasNonWsChar "" = false := rfl
    simp only [joinNl, hasNonWsChar_append, ih, hnl, hemp, Bool.or_false, Bool.false_or]

/-- C9: the translator flattens only the `text` field of each part — a
part without text contributes the empty string — so a turn whose parts
all lack text joins to whitespace and is dropped from the wire message
list; its structured content (`functionResponse`) reaches the backend in
no form. -/
theorem turn_without_text_omitted :
    (∀ p : Genai.Part, p.text = none → partFlattenedText p = "") ∧
      (∀ (c : Genai.Content) (ps : List Genai.Part),
        c.parts = some ps → (∀ p ∈ ps, p.text = none) →
        messageOfContent c = none) := by
  constructor
  · intro p hp
    simp [partFlattenedText, hp]
  · intro c ps hps hall
    have hmap : ∀ s ∈ ps.map partFlattenedText, s = "" := by
      intro s hs
      rcases List.mem_map.mp hs with ⟨p, hp, rfl⟩
      simp [partFlattenedText, hall p hp]
    have hjoin := hasNonWsChar_joinNl_all_empty _ hmap
    cases hr : c.role with
    | none => simp [messageOfContent, hr, hps]
    | some role =>
      by_cases hrole : role = "" <;>
        simp [messageOfContent, hr, hps, hrole, hjoin]

/-- Concrete turn for the C9 witness: a single structured tool-result
part with no text. -/
def c9WitnessContent : Genai.Content :=
  { role := some "user",
    parts := some [ { text := none, functionResponse := some (Json.str "tool output") } ] }

/-- Witness for C9: the all-structured turn is omitted, and its lone part
contributes the empty string. -/
theorem turn_without_text_omitted_witness :
    partFlattenedText { text := none, functionResponse := some (Json.str "tool output") } = "" ∧
      messageOfContent c9WitnessContent = none :=
  ⟨turn_without_text_omitted.1 _ rfl,
   turn_without_text_omitted.2 c9WitnessContent _ rfl
     (by intro p hp; simp at hp; subst hp; rfl)⟩

/-- C10 (counterexample): a request whose `contents` is the empty plain
string yields only the synthetic system message — one wire message, not
two: the JS truthiness check `if (request.contents)` skips the empty
string before the string branch is reached. -/
theorem string_contents_empty_skipped_cex :
    (convertToOpenAIFormat "m"
        { contents := some (.str ""), config := none }).messages =
        [systemPromptMessage] ∧
      ([systemPromptMessage] : List WireMessage).length ≠ 2 :=
  ⟨rfl, by decide⟩

/-- C10 (amended): for every request whose `contents` is a NONEMPTY plain
string, the translator produces exactly two wire messages: the fixed
synthetic system instruction first, then one user-role message carrying
the string verbatim (no trimming and no further empty-check); the empty
string is falsy for the contents-presence check and yields only the
system message. -/
theorem string_contents_two_messages (model s : String)
    (request : GenerateContentParameters) (h : request.contents = some (.str s))
    (hs : s ≠ "") :
    (convertToOpenAIFormat model request).messages =
      [systemPromptMessage, { role := "user", content := s }] := by
  rw [convert_messages_eq]
  simp [messagesOfRequest, h, hs]

/-- Witness for C10 (amended), at a whitespace-padded string: the content
is kept verbatim, untrimmed. -/
theorem string_contents_two_messages_witness :
    (convertToOpenAIFormat "m"
        { contents := some (.str "  hi  "), config := none }).messages =
      [systemPromptMessage, { role := "user", content := "  hi  " }] :=
  string_contents_two_messages "m" "  hi  " _ rfl (by decide)

/-! ## Wire response model (OpenAI-dialect chat completion) -/

/-- The `function` member of a wire tool call (`name` and the
`arguments` JSON string, either possibly absent). -/
structure WireToolCallFunction where
  name : Option String
  arguments : Option String

/-- One wire tool call (`tc.function` may be absent: the code accesses it
with optional chaining throughout). -/
structure WireToolCall where
  function : Option WireToolCallFunction

/-- The wire assistant message. -/
structure WireChatMessage where
  content : Option String
  tool_calls : Option (List WireToolCall)

/-- One wire completion choice. -/
structure WireChoice where
  message : Option WireChatMessage
  finish_reason : Option String

/-- The wire usage block. -/
structure WireUsage where
  prompt_tokens : Option Nat
  completion_tokens : Option Nat
  total_tokens : Option Nat

/-- The wire chat-completion response body. -/
structure WireResponse where
  choices : Option (List WireChoice)
  usage : Option WireUsage

/-! ## Canonical response model -/

/-- One canonical output part: text, or a tool call whose `args` is
always a well-formed structured value. -/
inductive OutPart where
  | text (t : String) : OutPart
  | functionCall (name : Option String) (args : Json) : OutPart

/-- Is this output part a tool-call part? -/
def OutPart.isFunctionCallPart : OutPart → Bool
  | .functionCall _ _ => true
  | .text _ => false

/-- One canonical candidate as built by the reconciler. -/
structure Candidate where
  parts : List OutPart
  role : String
  finishReason : String
  index : Nat
  tokenCount : Nat

/-- Canonical token-usage counters. -/
structure UsageMetadata where
  promptTokenCount : Nat
  candidatesTokenCount : Nat
  totalTokenCount : Nat
deriving Repr, DecidableEq

/-- Canonical generation response (the fields the reconciler builds). -/
structure GenerateContentResponse where
  candidates : List Candidate
  usageMetadata : UsageMetadata
  text : String

/-! ## Response reconciler — `convertFromOpenAIFormat`
(`localContentGenerator.ts`, lines 212–317) -/

/-- One step of `String.prototype.replace` with a global fixed pattern:
left-to-right, non-overlapping (fuel bounds the scan; one unit per input
character suffices since every step consumes at least one character). -/
def replaceAllGo (pat repl : List Char) : Nat → List Char → List Char
  | _, [] => []
  | 0, rest => rest
  | fuel + 1, c :: rest =>
    if pat.isPrefixOf (c :: rest) then
      repl ++ replaceAllGo pat repl fuel ((c :: rest).drop pat.length)
    else c :: replaceAllGo pat repl fuel rest

/-- `s.replace(/pat/g, repl)` for a fixed (regex-escaped) pattern. -/
def jsReplaceAll (s pat repl : String) : String :=
  String.mk (replaceAllGo pat.data repl.data s.data.length s.data)

/-- The single repair pass applied to an argument payload that failed
strict parsing (`localContentGenerator.ts`, lines 245–250): escape each
backslash-prefixed `n`, `t`, `r` by doubling the backslash, in that
order. -/
def fixEscapes (s : String) : String :=
  jsReplaceAll (jsReplaceAll (jsReplaceAll s "\\n" "\\\\n") "\\t" "\\\\t") "\\r" "\\\\r"

/-- The argument value attached to one wire tool call
(`localContentGenerator.ts`, lines 235–261): start from the empty object;
a truthy `arguments` string is parsed strictly, on failure repaired once
with `fixEscapes` and re-parsed, and on a second failure the empty object
stands.  Total: parse failure never escapes. -/
def argsOfToolCall (tc : WireToolCall) : Json :=
  match tc.function.bind WireToolCallFunction.arguments with
  | none => Json.obj []
  | some s =>
    if s = "" then Json.obj []
    else
      match Json.parse s with
      | some v => v
      | none =>
        match Json.parse (fixEscapes s) with
        | some v => v
        | none => Json.obj []

/-- Translate one wire tool call to a canonical tool-call part carrying
`tc.function?.name` and the recovered arguments.  (The enclosing
`try/catch` of the source, whose fallback also emits a part, is
unreachable in this total model.) -/
def processToolCall (tc : WireToolCall) : OutPart :=
  .functionCall (tc.function.bind WireToolCallFunction.name) (argsOfToolCall tc)

/-- `convertFromOpenAIFormat(data)`: first choice extracted with optional
chaining, text part only when the content has substance after trimming,
one tool-call part per wire tool call, verbatim finish reason defaulted
to `'STOP'`, and usage counters defaulted to 0. -/
def convertFromOpenAIFormat (data : WireResponse) : GenerateContentResponse :=
  let choice := (data.choices.getD []).head?
  let content := jsOrStr (choice.bind (fun c => c.message.bind WireChatMessage.content)) ""
  let toolCalls := (choice.bind (fun c => c.message.bind WireChatMessage.tool_calls)).getD []
  let textParts := if hasNonWsChar content then [OutPart.text content] else []
  let parts := textParts ++ toolCalls.map processToolCall
  { candidates :=
      [ { parts := parts,
          role := "model",
          finishReason := jsOrStr (choice.bind WireChoice.finish_reason) "STOP",
          index := 0,
          tokenCount := jsOrNat (data.usage.bind WireUsage.completion_tokens) 0 } ],
    usageMetadata :=
      { promptTokenCount := jsOrNat (data.usage.bind WireUsage.prompt_tokens) 0,
        candidatesTokenCount := jsOrNat (data.usage.bind WireUsage.completion_tokens) 0,
        totalTokenCount := jsOrNat (data.usage.bind WireUsage.total_tokens) 0 },
    text := content }


/-! ## Theorems about the response reconciler -/

/-- Every part produced from a wire tool call is a tool-call part, so the
mapped list counts one tool-call part per wire tool call. -/
theorem countP_map_processToolCall (l : List WireToolCall) :
    (l.map processToolCall).countP OutPart.isFunctionCallPart = l.length := by
  induction l with
  | nil => rfl
  | cons tc l ih =>
    simp [List.countP_cons, processToolCall, OutPart.isFunctionCallPart, ih]

/-- The optional text part contributes no tool-call part. -/
theorem countP_textParts (b : Bool) (t : String) :
    (if b then [OutPart.text t] else []).countP OutPart.isFunctionCallPart = 0 := by
  cases b <;> rfl

/-- C1: for every wire tool call whose `arguments` string fails strict
JSON parsing, the reconciled part carries the original tool-call name and
the value of exactly one `fixEscapes` repair-and-reparse pass, falling
back to the empty object when the retry also fails; and (second conjunct)
reconciliation is a total function — it never throws — that emits exactly
one tool-call part per wire tool call, dropping none. -/
theorem malformed_args_recovered :
    (∀ (tc : WireToolCall) (f : WireToolCallFunction) (s : String),
      tc.function = some f → f.arguments = some s → Json.parse s = none →
      processToolCall tc =
        OutPart.functionCall f.name ((Json.parse (fixEscapes s)).getD (Json.obj []))) ∧
      (∀ data : WireResponse,
        (convertFromOpenAIFormat data).candidates.map
            (fun c => c.parts.countP OutPart.isFunctionCallPart) =
          [((((data.choices.getD []).head?).bind
              (fun c => c.message.bind WireChatMessage.tool_calls)).getD []).length]) := by
  constructor
  · intro tc f s hf ha hparse
    unfold processToolCall argsOfToolCall
    rw [hf]
    simp only [Option.some_bind]
    rw [ha]
    by_cases hs : s = ""
    · subst hs
      rfl
    · simp only [if_neg hs, hparse]
      cases hfix : Json.parse (fixEscapes s) <;> simp [hfix]
  · intro data
    unfold convertFromOpenAIFormat
    simp only [List.map_cons, List.map_nil]
    rw [List.countP_append, countP_textParts, countP_map_processToolCall]
    simp

/-- Witness for C1 at the concrete payload "not json": strict parsing
fails, the repaired retry fails too, and the part keeps the name
`write_file` with the empty object as arguments. -/
theorem malformed_args_recovered_witness :
    Json.parse "not json" = none ∧
      processToolCall
          { function := some { name := some "write_file", arguments := some "not json" } } =
        OutPart.functionCall (some "write_file")
          ((Json.parse (fixEscapes "not json")).getD (Json.obj [])) ∧
      (Json.parse (fixEscapes "not json")).getD (Json.obj []) = Json.obj [] :=
  ⟨rfl, malformed_args_recovered.1 _ _ _ rfl rfl rfl, rfl⟩

/-- Modelled from the spec: the canonical termination-reason enumeration
of the data model ("stop", "tool-call", "length", "other"), as a
refinement-side definition to compare the code's behavior against. -/
def canonicalTerminationReasons : List String :=
  ["stop", "tool-call", "length", "other"]

/-- C4 (counterexample): on a wire response finishing with `tool_calls`,
the reconciler copies the wire finish reason through verbatim, and the
result is not an element of the canonical termination-reason
enumeration — no mapping into `canonicalTerminationReasons` happens. -/
theorem finish_reason_not_canonical_cex :
    (convertFromOpenAIFormat
        { choices := some [ { message := none, finish_reason := some "tool_calls" } ],
          usage := none }).candidates.map Candidate.finishReason = ["tool_calls"] ∧
      "tool_calls" ∉ canonicalTerminationReasons :=
  ⟨rfl, by decide⟩

/-- C4 (amended): the reconciler passes the wire finish reason through
verbatim when it is present and non-empty, and yields the string "STOP"
(not lowercase "stop") when the finish reason is absent or empty; no
translation into the canonical enumeration is performed. -/
theorem finish_reason_passthrough (data : WireResponse) :
    ((convertFromOpenAIFormat data).candidates.map Candidate.finishReason =
        [jsOrStr (((data.choices.getD []).head?).bind WireChoice.finish_reason) "STOP"]) ∧
      (∀ (choice : WireChoice) (fr : String),
        (data.choices.getD []).head? = some choice →
        choice.finish_reason = some fr → fr ≠ "" →
        (convertFromOpenAIFormat data).candidates.map Candidate.finishReason = [fr]) ∧
      ((data.choices.getD []).head? = none →
        (convertFromOpenAIFormat data).candidates.map Candidate.finishReason = ["STOP"]) := by
  have hbase : (convertFromOpenAIFormat data).candidates.map Candidate.finishReason =
      [jsOrStr (((data.choices.getD []).head?).bind WireChoice.finish_reason) "STOP"] := rfl
  refine ⟨hbase, ?_, ?_⟩
  · intro choice fr hc hfr hne
    rw [hbase, hc]
    simp [jsOrStr, hfr, hne]
  · intro hc
    rw [hbase, hc]
    rfl

/-- Witness for C4 (amended) at the concrete wire finish reason
"length". -/
theorem finish_reason_passthrough_witness :
    (convertFromOpenAIFormat
        { choices := some [ { message := none, finish_reason := some "length" } ],
          usage := none }).candidates.map Candidate.finishReason = ["length"] :=
  (finish_reason_passthrough _).2.1 _ "length" rfl rfl (by decide)

/-! ## Network oracle and the local backend adapter
(`localContentGenerator.ts`, lines 27–111) -/

/-- Outcome of one `fetch`: an HTTP response (with status line, body text
and the body's JSON parse when it is valid JSON), a timeout abort
(`TimeoutError`), or any other network failure (a thrown error). -/
inductive FetchResult where
  | response (status : Nat) (statusText : String) (bodyText : String)
      (json : Option WireResponse) : FetchResult
  | timeoutError : FetchResult
  | networkError : FetchResult

/-- JS `Response.ok`: status in the inclusive range 200–299. -/
def respOk (status : Nat) : Bool :=
  decide (200 ≤ status) && decide (status ≤ 299)

/-- Constructor argument of `LocalContentGenerator`. -/
structure LocalContentGeneratorConfig where
  endpoint : String
  model : String
  timeout : Option Nat

/-- The adapter's immutable per-instance state. -/
structure LocalContentGenerator where
  endpoint : String
  model : String
  timeout : Nat

/-- The constructor (`localContentGenerator.ts`, lines 32–36):
`endpoint || DEFAULT_LOCAL_ENDPOINT`, `timeout || 30000`. -/
def mkLocalContentGenerator (config : LocalContentGeneratorConfig) :
    LocalContentGenerator :=
  { endpoint := if config.endpoint = "" then DEFAULT_LOCAL_ENDPOINT else config.endpoint,
    model := config.model,
    timeout := jsOrNat config.timeout 30000 }

/-- `checkConnection()` (`localContentGenerator.ts`, lines 38–47): GET
the discovery path `/v1/models` on the configured endpoint; `response.ok`
on an HTTP response, `false` on every thrown error (network failure or
the 5-second probe timeout).  Total: failure never escapes as an
exception. -/
def checkConnection (g : LocalContentGenerator) (net : String → FetchResult) : Bool :=
  match net (g.endpoint ++ "/v1/models") with
  | .response status _ _ _ => respOk status
  | .timeoutError => false
  | .networkError => false

/-- The error taxonomy of `generateContent`'s throw sites. -/
inductive GenError where
  | connectivity (message : String) : GenError
  | httpError (status : Nat) (statusText : String) (body : String) : GenError
  | timeout (timeoutMs : Nat) : GenError
  | invalidJson : GenError
  | network : GenError

/-- Result of one `generateContent` call together with the URLs fetched
during the call, in order (so theorems can state which HTTP requests were
or were not issued). -/
structure GenOutcome where
  result : Except GenError GenerateContentResponse
  requestedUrls : List String

/-- `generateContent(request)` (`localContentGenerator.ts`, lines
49–97): probe first and fail with the connectivity error naming the
configured endpoint — without issuing the chat-completion POST — when the
probe fails; otherwise translate the request, POST
`/v1/chat/completions`, and fail on non-ok status (with status line and
body), on timeout (distinct error), or on an unparsable JSON body;
reconcile on success. -/
def LocalContentGenerator.generateContent (g : LocalContentGenerator)
    (net : String → FetchResult) (request : GenerateContentParameters) : GenOutcome :=
  let probeUrl := g.endpoint ++ "/v1/models"
  let chatUrl := g.endpoint ++ "/v1/chat/completions"
  let isConnected := checkConnection g net
  if isConnected then
    let _openAIRequest := convertToOpenAIFormat g.model request
    match net chatUrl with
    | .response status statusText body json =>
      if respOk status then
        match json with
        | some data =>
          { result := .ok (convertFromOpenAIFormat data),
            requestedUrls := [probeUrl, chatUrl] }
        | none =>
          { result := .error .invalidJson, requestedUrls := [probeUrl, chatUrl] }
      else
        { result := .error (.httpError status statusText body),
          requestedUrls := [probeUrl, chatUrl] }
    | .timeoutError =>
      { result := .error (.timeout g.timeout), requestedUrls := [probeUrl, chatUrl] }
    | .networkError =>
      { result := .error .network, requestedUrls := [probeUrl, chatUrl] }
  else
    { result := .error (.connectivity
        ("Cannot connect to LM Studio. Please ensure LM Studio is running on " ++ g.endpoint)),
      requestedUrls := [probeUrl] }

/-- C7: the probe returns true exactly when the GET against the
discovery path `{endpoint}/v1/models` yields a 2xx-class response; every
thrown error (network failure, timeout) and every non-2xx status yields
false, and — being a total function — the probe never raises past its
boundary. -/
theorem checkConnection_true_iff_2xx (g : LocalContentGenerator)
    (net : String → FetchResult) :
    checkConnection g net = true ↔
      ∃ status statusText body json,
        net (g.endpoint ++ "/v1/models") =
            FetchResult.response status statusText body json ∧
          200 ≤ status ∧ status ≤ 299 := by
  unfold checkConnection
  cases hn : net (g.endpoint ++ "/v1/models") with
  | response st sx b j =>
    simp only [respOk, Bool.and_eq_true, decide_eq_true_eq, FetchResult.response.injEq]
    constructor
    · rintro ⟨h1, h2⟩
      exact ⟨st, sx, b, j, ⟨rfl, rfl, rfl, rfl⟩, h1, h2⟩
    · rintro ⟨st', sx', b', j', ⟨rfl, rfl, rfl, rfl⟩, h1, h2⟩
      exact ⟨h1, h2⟩
  | timeoutError =>
    simp
  | networkError =>
    simp

/-- Witness for C7: a 200 response at the discovery path makes the probe
return true. -/
theorem checkConnection_true_iff_2xx_witness :
    checkConnection ⟨"http://127.0.0.1:1234", "m", 30000⟩
        (fun _ => FetchResult.response 200 "OK" "" none) = true :=
  (checkConnection_true_iff_2xx _ _).mpr ⟨200, "OK", "", none, rfl, by decide, by decide⟩

/-- Left-appending the same string preserves inequality. -/
theorem string_append_ne (e a b : String) (h : a ≠ b) : e ++ a ≠ e ++ b := by
  intro heq
  apply h
  have hd : (e ++ a).data = (e ++ b).data := by rw [heq]
  rw [String.data_append, String.data_append] at hd
  exact String.ext (List.append_cancel_left hd)

/-- C2: whenever the connection probe fails, `generateContent` fails with
the connectivity error naming the configured endpoint, the only URL
fetched is the discovery path, and the chat-completion URL is never
requested. -/
theorem generateContent_connectivity_precedence (g : LocalContentGenerator)
    (net : String → FetchResult) (request : GenerateContentParameters)
    (h : checkConnection g net = false) :
    (g.generateContent net request).result =
        Except.error (GenError.connectivity
          ("Cannot connect to LM Studio. Please ensure LM Studio is running on " ++ g.endpoint)) ∧
      (g.generateContent net request).requestedUrls = [g.endpoint ++ "/v1/models"] ∧
      g.endpoint ++ "/v1/chat/completions" ∉ (g.generateContent net request).requestedUrls := by
  have hrun : g.generateContent net request =
      { result := Except.error (GenError.connectivity
          ("Cannot connect to LM Studio. Please ensure LM Studio is running on " ++ g.endpoint)),
        requestedUrls := [g.endpoint ++ "/v1/models"] } := by
    unfold LocalContentGenerator.generateContent
    rw [h]
    rfl
  refine ⟨by rw [hrun], by rw [hrun], ?_⟩
  rw [hrun]
  intro hmem
  rcases List.mem_singleton.mp hmem with heq
  exact string_append_ne g.endpoint "/v1/chat/completions" "/v1/models" (by decide) heq

/-- Witness for C2: with a network oracle that always fails, the call
fails with the connectivity error and only the probe URL was fetched. -/
theorem generateContent_connectivity_precedence_witness :
    checkConnection ⟨"http://127.0.0.1:1234", "m", 30000⟩ (fun _ => FetchResult.networkError) = false ∧
      (LocalContentGenerator.generateContent ⟨"http://127.0.0.1:1234", "m", 30000⟩
          (fun _ => FetchResult.networkError) { contents := none, config := none }).result =
        Except.error (GenError.connectivity
          ("Cannot connect to LM Studio. Please ensure LM Studio is running on "
            ++ "http://127.0.0.1:1234")) :=
  ⟨rfl,
   (generateContent_connectivity_precedence ⟨"http://127.0.0.1:1234", "m", 30000⟩
     (fun _ => FetchResult.networkError) { contents := none, config := none } rfl).1⟩

/-! ## Backend selector — `contentGenerator.ts`
(`createContentGeneratorConfig`, lines 55–116; `createContentGenerator`,
lines 118–173) -/

/-- The `AuthType` enum of `contentGenerator.ts`. -/
inductive AuthType where
  | loginWithGooglePersonal : AuthType
  | useGemini : AuthType
  | useVertexAI : AuthType
  | useLocalModel : AuthType
deriving Repr, DecidableEq

/-- The environment variables read by the selector. -/
structure EnvVars where
  GEMINI_API_KEY : Option String
  GOOGLE_API_KEY : Option String
  GOOGLE_CLOUD_PROJECT : Option String
  GOOGLE_CLOUD_LOCATION : Option String
  LOCAL_MODEL_ENDPOINT : Option String

/-- The `ContentGeneratorConfig` record built by the selector. -/
structure ContentGeneratorConfig where
  model : String
  apiKey : Option String
  vertexai : Option Bool
  authType : Option AuthType
  localEndpoint : Option String
deriving Repr, DecidableEq

/-- JS truthiness of a possibly-undefined string. -/
def jsTruthyStr : Option String → Bool
  | some s => !(s == "")
  | none => false

/-- Line 67 of `contentGenerator.ts`:
`config?.getModel?.() || model || (authType === USE_LOCAL_MODEL ?
DEFAULT_QWEN_MODEL : DEFAULT_GEMINI_MODEL)`. -/
def effectiveModelOf (model : Option String) (authType : Option AuthType)
    (configGetModel : Option String) : String :=
  jsOrStr configGetModel
    (jsOrStr model
      (if authType = some AuthType.useLocalModel then DEFAULT_QWEN_MODEL
       else DEFAULT_GEMINI_MODEL))

/-- `createContentGeneratorConfig(model, authType, config)`.  The async
`getEffectiveModel` helper of `modelCheck.ts` (repository code outside
the sources under verification, reached only on the Gemini and Vertex
paths after the local check) is passed as an oracle
`getEffectiveModel apiKey model`. -/
def createContentGeneratorConfig (model : Option String) (authType : Option AuthType)
    (configGetModel : Option String) (env : EnvVars)
    (getEffectiveModel : String → String → String) : ContentGeneratorConfig :=
  let geminiApiKey := env.GEMINI_API_KEY
  let googleApiKey := env.GOOGLE_API_KEY
  let googleCloudProject := env.GOOGLE_CLOUD_PROJECT
  let googleCloudLocation := env.GOOGLE_CLOUD_LOCATION
  let localEndpoint := jsOrStr env.LOCAL_MODEL_ENDPOINT DEFAULT_LOCAL_ENDPOINT
  let effectiveModel := effectiveModelOf model authType configGetModel
  let base : ContentGeneratorConfig :=
    { model := effectiveModel, apiKey := none, vertexai := none,
      authType := authType, localEndpoint := some localEndpoint }
  if isLocalModel effectiveModel ∨ authType = some AuthType.useLocalModel then
    { base with authType := some AuthType.useLocalModel,
                localEndpoint := some localEndpoint }
  else if authType = some AuthType.loginWithGooglePersonal then
    base
  else if authType = some AuthType.useGemini ∧ jsTruthyStr geminiApiKey then
    { base with apiKey := geminiApiKey,
                model := getEffectiveModel (geminiApiKey.getD "") effectiveModel }
  else if authType = some AuthType.useVertexAI ∧ jsTruthyStr googleApiKey ∧
      jsTruthyStr googleCloudProject ∧ jsTruthyStr googleCloudLocation then
    { base with apiKey := googleApiKey, vertexai := some true,
                model := getEffectiveModel (googleApiKey.getD "") effectiveModel }
  else
    base

/-- The closed set of backends the selector can construct. -/
inductive ContentGeneratorBackend where
  | localGenerator (endpoint : String) (model : String) (timeout : Nat) :
      ContentGeneratorBackend
  | codeAssist : ContentGeneratorBackend
  | googleGenAI (apiKey : Option String) (vertexai : Option Bool) :
      ContentGeneratorBackend
deriving Repr, DecidableEq

/-- `createContentGenerator(config)`: local first (the startup probe
`probeOk` is purely diagnostic — a failed probe does not prevent
construction), then Code Assist, then the Google GenAI client, else a
construction-time error naming the unsupported mode. -/
def createContentGenerator (config : ContentGeneratorConfig) (probeOk : Bool) :
    Except String ContentGeneratorBackend :=
  if config.authType = some AuthType.useLocalModel then
    let _diagnosticProbe := probeOk
    .ok (.localGenerator (jsOrStr config.localEndpoint DEFAULT_LOCAL_ENDPOINT)
          config.model 30000)
  else if config.authType = some AuthType.loginWithGooglePersonal then
    .ok .codeAssist
  else if config.authType = some AuthType.useGemini ∨
      config.authType = some AuthType.useVertexAI then
    .ok (.googleGenAI (if config.apiKey = some "" then none else config.apiKey)
          config.vertexai)
  else
    .error "Error creating contentGenerator: Unsupported authType"

/-- `jsOrStr` is idempotent when re-applied with a non-empty default. -/
theorem jsOrStr_reapply (o : Option String) (d : String) (hd : d ≠ "") :
    jsOrStr (some (jsOrStr o d)) d = jsOrStr o d := by
  cases o with
  | none => simp [jsOrStr, hd]
  | some s => by_cases hs : s = "" <;> simp [jsOrStr, hs, hd]

/-- C6: whenever the resolved model identifier is recognized as local by
the registry, or the auth mode explicitly requests the local backend, the
selector marks the configuration local and constructs the Local Backend
Adapter with the configured (environment) or default endpoint — for every
other auth mode and regardless of the diagnostic probe result, so the
local check takes precedence and no cloud backend is considered. -/
theorem backend_selector_local_precedence (model : Option String)
    (authType : Option AuthType) (configGetModel : Option String) (env : EnvVars)
    (getEffectiveModel : String → String → String) (probeOk : Bool)
    (h : isLocalModel (effectiveModelOf model authType configGetModel) = true ∨
      authType = some AuthType.useLocalModel) :
    (createContentGeneratorConfig model authType configGetModel env getEffectiveModel).authType
        = some AuthType.useLocalModel ∧
      createContentGenerator
          (createContentGeneratorConfig model authType configGetModel env getEffectiveModel)
          probeOk =
        Except.ok (ContentGeneratorBackend.localGenerator
          (jsOrStr env.LOCAL_MODEL_ENDPOINT DEFAULT_LOCAL_ENDPOINT)
          (effectiveModelOf model authType configGetModel) 30000) := by
  have hcfg : createContentGeneratorConfig model authType configGetModel env getEffectiveModel =
      { model := effectiveModelOf model authType configGetModel,
        apiKey := none, vertexai := none,
        authType := some AuthType.useLocalModel,
        localEndpoint := some (jsOrStr env.LOCAL_MODEL_ENDPOINT DEFAULT_LOCAL_ENDPOINT) } := by
    unfold createContentGeneratorConfig
    rw [if_pos h]
  constructor
  · rw [hcfg]
  · rw [hcfg]
    unfold createContentGenerator
    rw [if_pos rfl]
    have hd : DEFAULT_LOCAL_ENDPOINT ≠ "" := by decide
    simp only [jsOrStr_reapply env.LOCAL_MODEL_ENDPOINT DEFAULT_LOCAL_ENDPOINT hd]

/-- Witness for C6: a locally-registered model identifier wins even when
the auth mode asks for Gemini with an API key present. -/
theorem backend_selector_local_precedence_witness :
    (createContentGeneratorConfig (some "qwen3-30b-a3b") (some AuthType.useGemini) none
        { GEMINI_API_KEY := some "key", GOOGLE_API_KEY := none, GOOGLE_CLOUD_PROJECT := none,
          GOOGLE_CLOUD_LOCATION := none, LOCAL_MODEL_ENDPOINT := none }
        (fun _ m => m)).authType = some AuthType.useLocalModel ∧
      createContentGenerator
          (createContentGeneratorConfig (some "qwen3-30b-a3b") (some AuthType.useGemini) none
            { GEMINI_API_KEY := some "key", GOOGLE_API_KEY := none,
              GOOGLE_CLOUD_PROJECT := none, GOOGLE_CLOUD_LOCATION := none,
              LOCAL_MODEL_ENDPOINT := none }
            (fun _ m => m)) true =
        Except.ok (ContentGeneratorBackend.localGenerator
          "http://127.0.0.1:1234" "qwen3-30b-a3b" 30000) :=
  backend_selector_local_precedence (some "qwen3-30b-a3b") (some AuthType.useGemini) none
    { GEMINI_API_KEY := some "key", GOOGLE_API_KEY := none, GOOGLE_CLOUD_PROJECT := none,
      GOOGLE_CLOUD_LOCATION := none, LOCAL_MODEL_ENDPOINT := none }
    (fun _ m => m) true (Or.inl (by decide))
